import Mathlib

/-!
Shallow embedding of `src/Passfort.py` (class `PasswordAnalyzer`).

Passwords are modelled as `List Char` (Unicode code points).  Python's
Unicode-aware builtin predicates `str.isupper`, `str.islower`, `str.isdigit`,
`str.isalpha` and the case-folding `str.lower` are embedded faithfully on the
Latin-1 range (code points 0 to 255), which covers every concrete character
appearing in this development; code points above 255 are conservatively
treated as uncased non-letters.  Floats are embedded as exact rationals (the
transition ratio) or reals (the entropy, which uses `math.log2`).  The
`secrets` randomness source is a parameter `g : Nat -> Nat` of draws, and the
HTTP breach lookup is a parameter holding either an exception or a
status/body pair.
-/

namespace Passfort

/-- Python `c.isupper()` for a single character, faithful on Latin-1:
uppercase ASCII letters and the Latin-1 uppercase letters (excluding the
multiplication sign U+00D7). -/
def pyIsUpper (c : Char) : Bool :=
  decide ((65 ≤ c.toNat ∧ c.toNat ≤ 90) ∨
    (192 ≤ c.toNat ∧ c.toNat ≤ 222 ∧ c.toNat ≠ 215))

/-- Python `c.islower()` for a single character, faithful on Latin-1:
lowercase ASCII letters, the feminine/masculine ordinal indicators U+00AA and
U+00BA, micro sign U+00B5, and Latin-1 lowercase letters (excluding the
division sign U+00F7). -/
def pyIsLower (c : Char) : Bool :=
  decide ((97 ≤ c.toNat ∧ c.toNat ≤ 122) ∨ c.toNat = 170 ∨ c.toNat = 181 ∨
    c.toNat = 186 ∨ (223 ≤ c.toNat ∧ c.toNat ≤ 255 ∧ c.toNat ≠ 247))

/-- Python `c.isdigit()` for a single character, faithful on Latin-1:
ASCII digits and the superscript digits U+00B2, U+00B3, U+00B9. -/
def pyIsDigit (c : Char) : Bool :=
  decide ((48 ≤ c.toNat ∧ c.toNat ≤ 57) ∨ c.toNat = 178 ∨ c.toNat = 179 ∨
    c.toNat = 185)

/-- Python `c.isalpha()` for a single character, faithful on Latin-1. -/
def pyIsAlpha (c : Char) : Bool :=
  decide ((65 ≤ c.toNat ∧ c.toNat ≤ 90) ∨ (97 ≤ c.toNat ∧ c.toNat ≤ 122) ∨
    c.toNat = 170 ∨ c.toNat = 181 ∨ c.toNat = 186 ∨
    (192 ≤ c.toNat ∧ c.toNat ≤ 255 ∧ c.toNat ≠ 215 ∧ c.toNat ≠ 247))

/-- Membership in Python's `string.punctuation` (the 32 ASCII punctuation
characters). -/
def pyIsPunct (c : Char) : Bool :=
  decide ((33 ≤ c.toNat ∧ c.toNat ≤ 47) ∨ (58 ≤ c.toNat ∧ c.toNat ≤ 64) ∨
    (91 ≤ c.toNat ∧ c.toNat ≤ 96) ∨ (123 ≤ c.toNat ∧ c.toNat ≤ 126))

/-- Python `str.lower()` on a single character, faithful on Latin-1:
uppercase ASCII and Latin-1 uppercase letters map down by 32, everything else
is unchanged. -/
def pyLowerChar (c : Char) : Char :=
  if (65 ≤ c.toNat ∧ c.toNat ≤ 90) ∨
      (192 ≤ c.toNat ∧ c.toNat ≤ 222 ∧ c.toNat ≠ 215) then
    Char.ofNat (c.toNat + 32)
  else c

/-- Python `str.lower()` on a whole string. -/
def pyLowerStr (p : List Char) : List Char := p.map pyLowerChar

/-- Python `str.upper()` on a single character, used only on fixed ASCII
words (faithful there: lowercase ASCII maps up by 32). -/
def pyUpperChar (c : Char) : Char :=
  if 97 ≤ c.toNat ∧ c.toNat ≤ 122 then Char.ofNat (c.toNat - 32) else c

/-- Python `str.capitalize()`: first character upcased, the rest lowercased
(used only on fixed ASCII words). -/
def pyCapitalize : List Char → List Char
  | [] => []
  | a :: rest => pyUpperChar a :: rest.map pyLowerChar

/-- Python `int()` on a rational: truncation toward zero. -/
def pyInt (q : ℚ) : ℤ := if q < 0 then -⌊-q⌋ else ⌊q⌋

/-- The fixed common-password set loaded by `_load_common_passwords`. -/
def common_passwords : List (List Char) :=
  ["password".toList, "123456".toList, "qwerty".toList, "admin".toList,
   "letmein".toList, "welcome".toList, "monkey".toList, "football".toList,
   "abc123".toList, "password1".toList, "12345678".toList, "111111".toList,
   "123123".toList, "admin123".toList, "master".toList, "sunshine".toList,
   "princess".toList, "dragon".toList, "passw0rd".toList, "baseball".toList,
   "trustno1".toList, "shadow".toList, "michael".toList, "jennifer".toList,
   "superman".toList, "123456789".toList, "qazwsx".toList, "killer".toList,
   "bailey".toList, "password123".toList]

/-- The fixed keyboard-walk substring list from `__init__`. -/
def keyboard_patterns : List (List Char) :=
  ["qwerty".toList, "asdfgh".toList, "zxcvbn".toList, "qazwsx".toList,
   "1q2w3e".toList, "poiuyt".toList, "lkjhgf".toList, "mnbvcx".toList,
   "123qwe".toList, "zaq12wsx".toList]

/-- `_check_keyboard_patterns`: the lowercased password contains one of the
fixed keyboard-walk substrings. -/
def _check_keyboard_patterns (p : List Char) : Bool :=
  keyboard_patterns.any (fun pat => decide (pat <:+: pyLowerStr p))

/-- A digit in the sense of the regex class backslash-d (Unicode category Nd;
on Latin-1 exactly the ASCII digits — the superscript digits are not Nd). -/
def reDigit (c : Char) : Bool := decide (48 ≤ c.toNat ∧ c.toNat ≤ 57)

/-- A date separator in the regex character class, slash or hyphen. -/
def isDateSep (c : Char) : Bool := c == '/' || c == '-'

/-- Whether the regex `\d{4}` matches at the head of the list. -/
def headDate4 : List Char → Bool
  | a :: b :: c :: d :: _ => reDigit a && reDigit b && reDigit c && reDigit d
  | _ => false

/-- Whether the regex two-digits, slash-or-hyphen, two-digits matches at the
head of the list. -/
def headDateSep2 : List Char → Bool
  | a :: b :: s :: c :: d :: _ =>
      reDigit a && reDigit b && isDateSep s && reDigit c && reDigit d
  | _ => false

/-- Whether the regex two-digits, slash-or-hyphen, two-digits,
slash-or-hyphen, two-to-four digits matches at the head of the list (for
`re.search` existence only the minimal two trailing digits matter). -/
def headDateSep3 : List Char → Bool
  | a :: b :: s :: c :: d :: t :: e :: f :: _ =>
      reDigit a && reDigit b && isDateSep s && reDigit c && reDigit d &&
      isDateSep t && reDigit e && reDigit f
  | _ => false

/-- `re.search` for a head-anchored matcher: try every suffix. -/
def searchAnywhere (m : List Char → Bool) : List Char → Bool
  | [] => m []
  | a :: rest => m (a :: rest) || searchAnywhere m rest

/-- `_check_date_patterns`: any of the three date regexes matches somewhere
in the raw password. -/
def _check_date_patterns (p : List Char) : Bool :=
  searchAnywhere headDate4 p || searchAnywhere headDateSep2 p ||
  searchAnywhere headDateSep3 p

/-- Python `str.replace` for one-character pattern and replacement. -/
def pyReplace (l : List Char) (a b : Char) : List Char :=
  l.map (fun c => if c == a then b else c)

/-- The fixed leet-substitution table of `_has_dictionary_patterns`, in
dict-insertion order. -/
def common_subs : List (Char × Char) :=
  [('@', 'a'), ('0', 'o'), ('1', 'l'), ('!', 'i'), ('3', 'e'),
   ('$', 's'), ('7', 't'), ('4', 'a'), ('9', 'g'), ('8', 'b')]

/-- The fixed common-word set of `_has_dictionary_patterns`. -/
def common_words : List (List Char) :=
  ["password".toList, "admin".toList, "user".toList, "login".toList,
   "secret".toList, "account".toList, "love".toList, "work".toList,
   "home".toList, "family".toList]

/-- `_has_dictionary_patterns`: lowercase, apply each leet substitution once
in table order, then look for any common word as a substring. -/
def _has_dictionary_patterns (p : List Char) : Bool :=
  let normalized :=
    common_subs.foldl (fun acc sub => pyReplace acc sub.1 sub.2) (pyLowerStr p)
  common_words.any (fun w => decide (w <:+: normalized))

/-- `_check_repeated_chars`: some character occurs at least 4 times. -/
def _check_repeated_chars (p : List Char) : Bool :=
  p.dedup.any (fun c => decide (4 ≤ p.count c))

/-- `_check_sequences`: three consecutive characters with strictly
consecutive increasing code points. -/
def _check_sequences : List Char → Bool
  | a :: b :: c :: rest =>
      (b.toNat == a.toNat + 1 && c.toNat == b.toNat + 1) ||
      _check_sequences (b :: c :: rest)
  | _ => false

/-- The per-pair transition test of `_analyze_char_transitions`, following
the source's if/elif chain. -/
def transPair (a b : Char) : Bool :=
  if pyIsAlpha a && pyIsAlpha b then pyIsUpper a != pyIsUpper b
  else if pyIsDigit a != pyIsDigit b then true
  else pyIsPunct a != pyIsPunct b

/-- The number of adjacent transition pairs in the password. -/
def countTransitions : List Char → Nat
  | a :: b :: rest => (if transPair a b then 1 else 0) + countTransitions (b :: rest)
  | _ => 0

/-- `_analyze_char_transitions`: 1.0 for short passwords, otherwise the
transition count divided by length minus one. -/
def _analyze_char_transitions (p : List Char) : ℚ :=
  if p.length < 2 then 1
  else (countTransitions p : ℚ) / ((p.length : ℚ) - 1)

/-- `char_sets` pool accumulation of `_calculate_entropy`, in dict-insertion
order (lowercase 26, uppercase 26, digits 10, special 32); membership is
exact membership in the ASCII character sets. -/
def charPool (p : List Char) : ℕ :=
  (if p.any (fun c => decide (97 ≤ c.toNat ∧ c.toNat ≤ 122)) then 26 else 0) +
  (if p.any (fun c => decide (65 ≤ c.toNat ∧ c.toNat ≤ 90)) then 26 else 0) +
  (if p.any (fun c => decide (48 ≤ c.toNat ∧ c.toNat ≤ 57)) then 10 else 0) +
  (if p.any pyIsPunct then 32 else 0)

/-- `_calculate_entropy`: `len(password) * math.log2(char_pool)` when the
pool is non-empty, else 0.0. -/
noncomputable def _calculate_entropy (p : List Char) : ℝ :=
  if charPool p ≠ 0 then (p.length : ℝ) * Real.logb 2 (charPool p) else 0

/-- The metrics dictionary built by `_evaluate_strength` (everything except
the `breached` key, which `analyze_password` adds afterwards). -/
structure BaseMetrics where
  length : ℕ
  has_uppercase : Bool
  has_lowercase : Bool
  has_digits : Bool
  has_special : Bool
  repeated_chars : Bool
  sequential_chars : Bool
  keyboard_pattern : Bool
  character_transitions : ℚ

/-- The full metrics dictionary after `analyze_password` merges in the
breach-oracle result. -/
structure Metrics extends BaseMetrics where
  breached : Bool

/-- `_evaluate_strength`: the per-password metrics. -/
def _evaluate_strength (p : List Char) : BaseMetrics where
  length := p.length
  has_uppercase := p.any pyIsUpper
  has_lowercase := p.any pyIsLower
  has_digits := p.any pyIsDigit
  has_special := p.any pyIsPunct
  repeated_chars := _check_repeated_chars p
  sequential_chars := _check_sequences p
  keyboard_pattern := _check_keyboard_patterns p
  character_transitions := _analyze_char_transitions p

/-- The fixed weakness messages appended by `_detect_weaknesses`. -/
def msgCommon : String := "Password is in common password list"

/-- Message for the keyboard-pattern detector. -/
def msgKeyboard : String := "Contains keyboard pattern sequences"

/-- Message for the username-containment detector. -/
def msgUsername : String := "Password contains username"

/-- Message for the dictionary-pattern detector. -/
def msgDictionary : String := "Contains predictable dictionary patterns"

/-- Message for the date-pattern detector. -/
def msgDate : String := "Contains date-like patterns"

/-- `_detect_weaknesses`: each detector appends its fixed message, in source
order; the username check only fires for a non-empty username (Python
truthiness) whose lowercase form occurs in the lowercased password. -/
def _detect_weaknesses (p u : List Char) : List String :=
  (if pyLowerStr p ∈ common_passwords then [msgCommon] else []) ++
  (if _check_keyboard_patterns p then [msgKeyboard] else []) ++
  (if u ≠ [] ∧ pyLowerStr u <:+: pyLowerStr p then [msgUsername] else []) ++
  (if _has_dictionary_patterns p then [msgDictionary] else []) ++
  (if _check_date_patterns p then [msgDate] else [])

/-- `_check_hibp_breach`, with the two external effects as parameters: the
SHA-1 hex digest of the password (uppercased, as `hashlib` produces after
`.upper()`) and the HTTP outcome, either an exception (`Except.error`) or a
status code with response body.  Any exception yields `false`; a non-200
status yields `false`; a 200 body is split on CRLF and each line's field
before the first colon is compared with the 35-character digest suffix. -/
def _check_hibp_breach (sha1hex : String) (resp : Except Unit (ℕ × String)) :
    Bool :=
  match resp with
  | Except.error _ => false
  | Except.ok (status, body) =>
      if status == 200 then
        (body.splitOn "\r\n").any
          (fun h => (h.splitOn ":").headD "" == sha1hex.drop 5)
      else false

/-- The failure cases of the breach lookup: an exception was raised, or the
HTTP response had a non-success status code. -/
def hibpFailure (resp : Except Unit (ℕ × String)) : Prop :=
  match resp with
  | Except.error _ => True
  | Except.ok (status, _) => status ≠ 200

/-- `_calculate_strength_score`: the additive score over the metrics and the
weaknesses list, clamped to the range 0 to 100.  Python's `int()` truncation
is `pyInt`. -/
def _calculate_strength_score (m : Metrics) (weaknesses : List String) : ℤ :=
  let score : ℤ := min ((m.length : ℤ) * 4) 40
  let score := score + (if m.has_uppercase then 10 else 0)
  let score := score + (if m.has_lowercase then 10 else 0)
  let score := score + (if m.has_digits then 10 else 0)
  let score := score + (if m.has_special then 10 else 0)
  let score := score + pyInt (m.character_transitions * 10)
  let score := score - (if m.repeated_chars then 15 else 0)
  let score := score - (if m.sequential_chars then 15 else 0)
  let score := score - (if m.keyboard_pattern then 20 else 0)
  let score := score - (if weaknesses ≠ [] then 20 else 0)
  let score := score - (if m.breached then 30 else 0)
  max 0 (min 100 score)

/-- `_generate_recommendations`: advisory strings keyed off the score and
metrics, with the passphrase advice always appended last. -/
def _generate_recommendations (score : ℤ) (m : Metrics) : List String :=
  (if score < 60 then ["Use a stronger password with more complexity"] else []) ++
  (if m.length < 12 then
    ["Increase password length to at least 12 characters"] else []) ++
  (if ¬(m.has_uppercase ∧ m.has_lowercase ∧ m.has_digits ∧ m.has_special) then
    ["Mix uppercase, lowercase, numbers, and special characters"] else []) ++
  (if m.breached then
    ["This password was found in a breach - change it immediately"] else []) ++
  (if m.keyboard_pattern then
    ["Avoid keyboard patterns (e.g., qwerty, asdf)"] else []) ++
  ["Consider using a unique passphrase (e.g., \x27CorrectHorseBatteryStaple\x27)"]

/-- Python `string.ascii_lowercase`. -/
def ascii_lowercase : List Char := "abcdefghijklmnopqrstuvwxyz".toList

/-- Python `string.ascii_uppercase`. -/
def ascii_uppercase : List Char := "ABCDEFGHIJKLMNOPQRSTUVWXYZ".toList

/-- Python `string.ascii_letters` (lowercase then uppercase). -/
def ascii_letters : List Char := ascii_lowercase ++ ascii_uppercase

/-- Python `string.digits`. -/
def digitsList : List Char := "0123456789".toList

/-- Python `string.punctuation` (32 ASCII punctuation characters). -/
def punctuationList : List Char :=
  "!\"#$%&\x27()*+,-./:;<=>?@[\\]^_\x60\x7b|\x7d~".toList

/-- Python `string.printable` (digits, letters, punctuation, whitespace). -/
def printableList : List Char :=
  digitsList ++ ascii_letters ++ punctuationList ++ " \t\n\r\x0b\x0c".toList

/-- Modelled randomness: `secrets.choice` returns an element of a non-empty
sequence; the natural-number draw `r` selects the index `r` modulo the
length. -/
def secretsChoice {α : Type} [Inhabited α] (l : List α) (r : ℕ) : α :=
  l.getD (r % l.length) default

/-- The alphabet of `generate_secure_password`: letters, digits,
punctuation. -/
def suggestAlphabet : List Char := ascii_letters ++ digitsList ++ punctuationList

/-- `generate_secure_password`: one `secrets.choice` from the alphabet per
loop iteration; Python's `range` over a non-positive length is empty, so the
result is the empty string then. -/
def generate_secure_password (length : ℤ) (g : ℕ → ℕ) : List Char :=
  (List.range length.toNat).map (fun i => secretsChoice suggestAlphabet (g i))

/-- The fixed word list of `_suggest_strong_passwords`. -/
def passphrase_words : List (List Char) :=
  ["correct".toList, "horse".toList, "battery".toList, "staple".toList,
   "blue".toList, "mountain".toList, "thunder".toList, "river".toList,
   "silver".toList, "cloud".toList]

/-- `_suggest_strong_passwords`: three candidates — a 16-character random
string, a four-word capitalized passphrase with a 0–99 numeric suffix
(`secrets.randbelow(100)` is modelled as the draw modulo 100), and a
composite drawn from the biased repeated pools of the source.  The draw
stream `g` is consumed at disjoint indices. -/
def _suggest_strong_passwords (g : ℕ → ℕ) : List (List Char) :=
  [generate_secure_password 16 g,
   (((List.range 4).map
       (fun i => pyCapitalize (secretsChoice passphrase_words (g (16 + i))))).flatten
     ++ (Nat.repr (g 20 % 100)).toList),
   [secretsChoice ascii_uppercase (g 21)] ++
   [secretsChoice (List.flatten (List.replicate 5 ascii_lowercase)) (g 22)] ++
   [secretsChoice (List.flatten (List.replicate 3 digitsList)) (g 23)] ++
   [secretsChoice (List.flatten (List.replicate 2 punctuationList)) (g 24)] ++
   (List.range 10).map (fun i => secretsChoice printableList (g (25 + i)))]

/-- The analysis dictionary returned by `analyze_password`. -/
structure AnalysisResult where
  strength_score : ℤ
  entropy : ℝ
  weaknesses : List String
  recommendations : List String
  metrics : Metrics
  suggested_passwords : List (List Char)

/-- `analyze_password`: the full pipeline.  The external effects are
parameters: `sha1hex` the password's SHA-1 digest (the hash primitive is
outside the model), `resp` the HTTP outcome of the breach lookup, and `g`
the stream of random draws (used only by the suggestion generator).  The
model is a total function: analysis always completes with a result. -/
noncomputable def analyze_password (p u : List Char) (sha1hex : String)
    (resp : Except Unit (ℕ × String)) (g : ℕ → ℕ) : AnalysisResult :=
  let base := _evaluate_strength p
  let weaknesses := _detect_weaknesses p u
  let entropy := _calculate_entropy p
  let breached := _check_hibp_breach sha1hex resp
  let metrics : Metrics := { toBaseMetrics := base, breached := breached }
  let score := _calculate_strength_score metrics weaknesses
  { strength_score := score
    entropy := entropy
    weaknesses := weaknesses
    recommendations := _generate_recommendations score metrics
    metrics := metrics
    suggested_passwords := _suggest_strong_passwords g }

/-! ## Spec-side definitions

These follow the specification's wording, to be compared with the
source-side definitions above. -/

/-- An ASCII lowercase letter (spec wording). -/
def isAsciiLower (c : Char) : Bool := decide (97 ≤ c.toNat ∧ c.toNat ≤ 122)

/-- An ASCII uppercase letter (spec wording). -/
def isAsciiUpper (c : Char) : Bool := decide (65 ≤ c.toNat ∧ c.toNat ≤ 90)

/-- An ASCII digit (spec wording). -/
def isAsciiDigit (c : Char) : Bool := decide (48 ≤ c.toNat ∧ c.toNat ≤ 57)

/-- An ASCII letter (spec wording). -/
def isAsciiLetter (c : Char) : Bool := isAsciiUpper c || isAsciiLower c

/-- The claim's character pool: the sum of the alphabet sizes (26, 26, 10,
32) of exactly those classes with at least one member present. -/
def specPool (p : List Char) : ℕ :=
  (if p.any isAsciiLower then 26 else 0) +
  (if p.any isAsciiUpper then 26 else 0) +
  (if p.any isAsciiDigit then 10 else 0) +
  (if p.any pyIsPunct then 32 else 0)

/-- The claim's per-pair transition condition, as one disjunction: both
characters letters of differing case, or exactly one a digit, or exactly one
a punctuation character. -/
def specTransPair (a b : Char) : Bool :=
  (pyIsAlpha a && pyIsAlpha b && (pyIsUpper a != pyIsUpper b)) ||
  (pyIsDigit a != pyIsDigit b) || (pyIsPunct a != pyIsPunct b)

/-- Adjacent pairs satisfying the claim's transition condition. -/
def countSpecTransitions : List Char → Nat
  | a :: b :: rest =>
      (if specTransPair a b then 1 else 0) + countSpecTransitions (b :: rest)
  | _ => 0

/-! ## Helper lemmas -/

/-- Python truncation agrees with the floor on nonnegative rationals. -/
theorem pyInt_eq_floor (q : ℚ) (h : 0 ≤ q) : pyInt q = ⌊q⌋ := by
  unfold pyInt
  rw [if_neg (not_lt.mpr h)]

/-- A Latin-1 alphabetic character is not a digit. -/
theorem pyIsAlpha_not_digit (c : Char) (h : pyIsAlpha c = true) :
    pyIsDigit c = false := by
  simp only [pyIsAlpha, decide_eq_true_eq] at h
  simp only [pyIsDigit, decide_eq_false_iff_not]
  omega

/-- A Latin-1 alphabetic character is not ASCII punctuation. -/
theorem pyIsAlpha_not_punct (c : Char) (h : pyIsAlpha c = true) :
    pyIsPunct c = false := by
  simp only [pyIsAlpha, decide_eq_true_eq] at h
  simp only [pyIsPunct, decide_eq_false_iff_not]
  omega

/-- The source's if/elif transition test coincides with the claim's single
disjunction. -/
theorem transPair_eq_specTransPair (a b : Char) :
    transPair a b = specTransPair a b := by
  unfold transPair specTransPair
  cases ha : pyIsAlpha a <;> cases hb : pyIsAlpha b <;>
    simp only [ha, hb, Bool.true_and, Bool.false_and, Bool.and_true,
      Bool.and_false, Bool.false_or, Bool.true_or, if_true, if_false,
      Bool.and_self]
  · cases pyIsDigit a <;> cases pyIsDigit b <;>
      cases pyIsPunct a <;> cases pyIsPunct b <;> simp
  · cases pyIsDigit a <;> cases pyIsDigit b <;>
      cases pyIsPunct a <;> cases pyIsPunct b <;> simp
  · cases pyIsDigit a <;> cases pyIsDigit b <;>
      cases pyIsPunct a <;> cases pyIsPunct b <;> simp
  · rw [pyIsAlpha_not_digit a ha, pyIsAlpha_not_digit b hb,
      pyIsAlpha_not_punct a ha, pyIsAlpha_not_punct b hb]
    simp

/-- The source's transition count equals the claim's. -/
theorem countTransitions_eq_spec :
    ∀ l : List Char, countTransitions l = countSpecTransitions l
  | [] => rfl
  | [_] => rfl
  | a :: b :: rest => by
      rw [countTransitions, countSpecTransitions, transPair_eq_specTransPair,
        countTransitions_eq_spec (b :: rest)]

/-- At most one transition per adjacent pair. -/
theorem countTransitions_le :
    ∀ l : List Char, countTransitions l ≤ l.length - 1
  | [] => by simp [countTransitions]
  | [_] => by simp [countTransitions]
  | a :: b :: rest => by
      have ih := countTransitions_le (b :: rest)
      rw [countTransitions]
      simp only [List.length_cons] at ih ⊢
      split <;> omega

/-- The transition ratio is nonnegative. -/
theorem transitions_nonneg (p : List Char) :
    0 ≤ _analyze_char_transitions p := by
  unfold _analyze_char_transitions
  split
  · norm_num
  · next h =>
    apply div_nonneg (Nat.cast_nonneg _)
    have : 2 ≤ p.length := by omega
    have : (2 : ℚ) ≤ (p.length : ℚ) := by exact_mod_cast this
    linarith

/-- The transition ratio is at most one. -/
theorem transitions_le_one (p : List Char) :
    _analyze_char_transitions p ≤ 1 := by
  unfold _analyze_char_transitions
  split
  · norm_num
  · next h =>
    have hlen : 2 ≤ p.length := by omega
    have hc : countTransitions p ≤ p.length - 1 := countTransitions_le p
    have hc' : countTransitions p + 1 ≤ p.length := by omega
    have hcq : (countTransitions p : ℚ) + 1 ≤ (p.length : ℚ) := by
      exact_mod_cast hc'
    have hlq : (2 : ℚ) ≤ (p.length : ℚ) := by exact_mod_cast hlen
    rw [div_le_one (by linarith)]
    linarith

/-- The score calculator with the truncation written as a floor (valid since
the transition ratio is nonnegative). -/
theorem calc_score_floor (m : Metrics) (w : List String)
    (h : 0 ≤ m.character_transitions) :
    _calculate_strength_score m w =
      max 0 (min 100 (
        min ((m.length : ℤ) * 4) 40
        + (if m.has_uppercase then 10 else 0)
        + (if m.has_lowercase then 10 else 0)
        + (if m.has_digits then 10 else 0)
        + (if m.has_special then 10 else 0)
        + ⌊m.character_transitions * 10⌋
        - (if m.repeated_chars then 15 else 0)
        - (if m.sequential_chars then 15 else 0)
        - (if m.keyboard_pattern then 20 else 0)
        - (if w ≠ [] then 20 else 0)
        - (if m.breached then 30 else 0))) := by
  simp only [_calculate_strength_score]
  rw [pyInt_eq_floor _ (mul_nonneg h (by norm_num))]

/-- The pre-clamp score never exceeds 90 when the transition ratio lies in
the unit interval, so neither does the clamped score. -/
theorem calc_score_le_90 (m : Metrics) (w : List String)
    (h0 : 0 ≤ m.character_transitions) (h1 : m.character_transitions ≤ 1) :
    _calculate_strength_score m w ≤ 90 := by
  simp only [_calculate_strength_score]
  rw [pyInt_eq_floor _ (mul_nonneg h0 (by norm_num))]
  have hf : ⌊m.character_transitions * 10⌋ ≤ 10 := by
    have h10 : m.character_transitions * 10 ≤ 10 := by linarith
    calc ⌊m.character_transitions * 10⌋ ≤ ⌊(10 : ℚ)⌋ := Int.floor_le_floor h10
    _ = 10 := by norm_num
  have hmin : min ((m.length : ℤ) * 4) 40 ≤ 40 := min_le_right _ _
  have e1 : (if m.has_uppercase then (10:ℤ) else 0) ≤ 10 := by split <;> norm_num
  have e2 : (if m.has_lowercase then (10:ℤ) else 0) ≤ 10 := by split <;> norm_num
  have e3 : (if m.has_digits then (10:ℤ) else 0) ≤ 10 := by split <;> norm_num
  have e4 : (if m.has_special then (10:ℤ) else 0) ≤ 10 := by split <;> norm_num
  have n1 : (0:ℤ) ≤ (if m.repeated_chars then 15 else 0) := by split <;> norm_num
  have n2 : (0:ℤ) ≤ (if m.sequential_chars then 15 else 0) := by split <;> norm_num
  have n3 : (0:ℤ) ≤ (if m.keyboard_pattern then 20 else 0) := by split <;> norm_num
  have n4 : (0:ℤ) ≤ (if w ≠ [] then 20 else 0) := by split <;> norm_num
  have n5 : (0:ℤ) ≤ (if m.breached then 30 else 0) := by split <;> norm_num
  refine max_le (by norm_num) (le_trans (min_le_right _ _) ?_)
  linarith

/-! ## Claims -/

/-- C1: for every password analysis, the strength score equals the
deterministic formula `min(length*4, 40)`, plus 10 for each of the four
class flags that is true, plus the floor of `character_transitions * 10`,
minus 15 for repeated characters, minus 15 for sequential characters, minus
20 for a keyboard pattern, minus a flat 20 if the weaknesses list is
non-empty, minus 30 if breached, clamped to the range 0 to 100. -/
theorem strength_score_formula (p u : List Char) (sh : String)
    (resp : Except Unit (ℕ × String)) (g : ℕ → ℕ) :
    (analyze_password p u sh resp g).strength_score =
      max 0 (min 100 (
        min (((analyze_password p u sh resp g).metrics.length : ℤ) * 4) 40
        + (if (analyze_password p u sh resp g).metrics.has_uppercase then 10 else 0)
        + (if (analyze_password p u sh resp g).metrics.has_lowercase then 10 else 0)
        + (if (analyze_password p u sh resp g).metrics.has_digits then 10 else 0)
        + (if (analyze_password p u sh resp g).metrics.has_special then 10 else 0)
        + ⌊(analyze_password p u sh resp g).metrics.character_transitions * 10⌋
        - (if (analyze_password p u sh resp g).metrics.repeated_chars then 15 else 0)
        - (if (analyze_password p u sh resp g).metrics.sequential_chars then 15 else 0)
        - (if (analyze_password p u sh resp g).metrics.keyboard_pattern then 20 else 0)
        - (if (analyze_password p u sh resp g).weaknesses ≠ [] then 20 else 0)
        - (if (analyze_password p u sh resp g).metrics.breached then 30 else 0))) :=
  calc_score_floor _ _ (transitions_nonneg p)

/-- C2 counterexample: the Latin-1 character U+00C4 is outside the ASCII
letters, digits, and punctuation, yet the analysis sets `has_uppercase`
for the one-character password made of it, because the source uses Python's
Unicode-aware `str.isupper`. -/
theorem class_flags_nonascii_counterexample :
    isAsciiLetter (Char.ofNat 196) = false ∧
    isAsciiDigit (Char.ofNat 196) = false ∧
    pyIsPunct (Char.ofNat 196) = false ∧
    (_evaluate_strength [Char.ofNat 196]).has_uppercase = true := by
  decide

/-- C2 amended: an ASCII character outside the ASCII letters, digits, and
punctuation contributes to none of the four class flags: a password
consisting only of such characters has all four flags false.  (Non-ASCII
characters can set the letter and digit flags, since the source uses
Python's Unicode-aware predicates.) -/
theorem class_flags_ascii_other_false (p : List Char)
    (h : ∀ c ∈ p, c.toNat < 128 ∧ isAsciiLetter c = false ∧
      isAsciiDigit c = false ∧ pyIsPunct c = false) :
    (_evaluate_strength p).has_uppercase = false ∧
    (_evaluate_strength p).has_lowercase = false ∧
    (_evaluate_strength p).has_digits = false ∧
    (_evaluate_strength p).has_special = false := by
  refine ⟨?_, ?_, ?_, ?_⟩ <;>
  · show List.any _ _ = false
    rw [List.any_eq_false]
    intro c hc
    obtain ⟨hlt, hl, hd, hp⟩ := h c hc
    simp only [isAsciiLetter, isAsciiUpper, isAsciiLower, Bool.or_eq_false_iff,
      decide_eq_false_iff_not] at hl
    simp only [isAsciiDigit, decide_eq_false_iff_not] at hd
    simp only [pyIsPunct, decide_eq_false_iff_not] at hp
    simp only [pyIsUpper, pyIsLower, pyIsDigit, pyIsPunct, decide_eq_true_eq]
    omega

/-- C2 amended witness: the space character at a concrete input. -/
theorem class_flags_ascii_other_false_witness :
    (∀ c ∈ [Char.ofNat 32], c.toNat < 128 ∧ isAsciiLetter c = false ∧
      isAsciiDigit c = false ∧ pyIsPunct c = false) ∧
    ((_evaluate_strength [Char.ofNat 32]).has_uppercase = false ∧
     (_evaluate_strength [Char.ofNat 32]).has_lowercase = false ∧
     (_evaluate_strength [Char.ofNat 32]).has_digits = false ∧
     (_evaluate_strength [Char.ofNat 32]).has_special = false) :=
  ⟨by decide, class_flags_ascii_other_false [Char.ofNat 32] (by decide)⟩

/-- C4: the transition ratio is 1.0 for passwords shorter than two
characters; otherwise it is the number of adjacent pairs satisfying the
claim's transition condition divided by length minus one; it always lies in
the unit interval; and it is 1.0 on the string Aa1! and 0.0 on aaaa. -/
theorem char_transitions_spec (p : List Char) :
    (p.length < 2 → _analyze_char_transitions p = 1) ∧
    (2 ≤ p.length →
      _analyze_char_transitions p =
        (countSpecTransitions p : ℚ) / ((p.length : ℚ) - 1)) ∧
    0 ≤ _analyze_char_transitions p ∧
    _analyze_char_transitions p ≤ 1 ∧
    _analyze_char_transitions "Aa1!".toList = 1 ∧
    _analyze_char_transitions "aaaa".toList = 0 := by
  refine ⟨?_, ?_, transitions_nonneg p, transitions_le_one p, ?_, ?_⟩
  · intro h
    unfold _analyze_char_transitions
    rw [if_pos h]
  · intro h
    unfold _analyze_char_transitions
    rw [if_neg (by omega), countTransitions_eq_spec]
  · have hc : countTransitions "Aa1!".toList = 3 := by decide
    have hl : ("Aa1!".toList : List Char).length = 4 := by decide
    unfold _analyze_char_transitions
    rw [if_neg (by decide), hc, hl]
    norm_num
  · have hc : countTransitions "aaaa".toList = 0 := by decide
    have hl : ("aaaa".toList : List Char).length = 4 := by decide
    unfold _analyze_char_transitions
    rw [if_neg (by decide), hc, hl]
    norm_num

/-- C4 witness: both branches at concrete inputs. -/
theorem char_transitions_spec_witness :
    _analyze_char_transitions [] = 1 ∧
    _analyze_char_transitions ('a' :: 'b' :: []) =
      (countSpecTransitions ('a' :: 'b' :: []) : ℚ) /
        ((((('a' :: 'b' :: []) : List Char)).length : ℚ) - 1) :=
  ⟨(char_transitions_spec []).1 (by decide),
   (char_transitions_spec ('a' :: 'b' :: [])).2.1 (by decide)⟩

/-- C10: the strength score never exceeds 90: the pre-clamp maximum is 40
for length plus 40 for the four class bonuses plus 10 for the transition
bonus, so the upper clamp at 100 never binds. -/
theorem strength_score_le_ninety (p u : List Char) (sh : String)
    (resp : Except Unit (ℕ × String)) (g : ℕ → ℕ) :
    (analyze_password p u sh resp g).strength_score ≤ 90 :=
  calc_score_le_90 _ _ (transitions_nonneg p) (transitions_le_one p)

/-- A modelled `secrets.choice` from a non-empty list is an element of it. -/
theorem secretsChoice_mem {α : Type} [Inhabited α] (l : List α) (r : ℕ)
    (h : l ≠ []) : secretsChoice l r ∈ l := by
  have hlt : r % l.length < l.length := Nat.mod_lt _ (List.length_pos.mpr h)
  unfold secretsChoice
  rw [List.getD_eq_getElem l default hlt]
  exact List.getElem_mem hlt

/-- C3: the entropy equals length times the base-2 logarithm of the pool
size, where the pool is the sum of the alphabet sizes (26, 26, 10, 32) of
exactly the character classes present; it is 0 when no class is present (in
particular on the empty password), and it is always nonnegative. -/
theorem entropy_spec (p : List Char) :
    _calculate_entropy p =
      (if specPool p = 0 then 0
       else (p.length : ℝ) * Real.logb 2 (specPool p)) ∧
    0 ≤ _calculate_entropy p ∧
    _calculate_entropy [] = 0 := by
  have hsc : specPool p = charPool p := rfl
  refine ⟨?_, ?_, ?_⟩
  · unfold _calculate_entropy
    rw [hsc, ite_not]
  · unfold _calculate_entropy
    split
    · next h =>
      have h1 : 1 ≤ charPool p := Nat.one_le_iff_ne_zero.mpr h
      have h1r : (1 : ℝ) ≤ (charPool p : ℝ) := by exact_mod_cast h1
      exact mul_nonneg (Nat.cast_nonneg _) (Real.logb_nonneg one_lt_two h1r)
    · exact le_refl 0
  · simp [_calculate_entropy, charPool]

/-- C5: any failing breach lookup (exception or non-success HTTP status)
yields "not breached", and the analysis still completes with a result whose
`breached` field is false — the model of `analyze_password` is a total
function, so no error propagates to the caller. -/
theorem breach_failure_swallowed (p u : List Char) (sh : String)
    (resp : Except Unit (ℕ × String)) (g : ℕ → ℕ) (h : hibpFailure resp) :
    _check_hibp_breach sh resp = false ∧
    (analyze_password p u sh resp g).metrics.breached = false := by
  have hb : _check_hibp_breach sh resp = false := by
    unfold _check_hibp_breach
    cases resp with
    | error e => rfl
    | ok sb =>
        obtain ⟨status, body⟩ := sb
        unfold hibpFailure at h
        simp [h]
  exact ⟨hb, hb⟩

/-- C5 witness: a concrete exception outcome. -/
theorem breach_failure_swallowed_witness :
    _check_hibp_breach "" (Except.error ()) = false ∧
    (analyze_password [] [] "" (Except.error ()) (fun _ => 0)).metrics.breached
      = false :=
  breach_failure_swallowed [] [] "" (Except.error ()) (fun _ => 0) True.intro

/-- C6: analysis is deterministic apart from the suggestion generator: with
identical password, username, digest, and breach-oracle response, two runs
with different random draws agree on the score, entropy, metrics,
weaknesses, and recommendations (only `suggested_passwords` may differ). -/
theorem analyze_deterministic (p u : List Char) (sh : String)
    (resp : Except Unit (ℕ × String)) (g₁ g₂ : ℕ → ℕ) :
    (analyze_password p u sh resp g₁).strength_score
        = (analyze_password p u sh resp g₂).strength_score ∧
    (analyze_password p u sh resp g₁).entropy
        = (analyze_password p u sh resp g₂).entropy ∧
    (analyze_password p u sh resp g₁).metrics
        = (analyze_password p u sh resp g₂).metrics ∧
    (analyze_password p u sh resp g₁).weaknesses
        = (analyze_password p u sh resp g₂).weaknesses ∧
    (analyze_password p u sh resp g₁).recommendations
        = (analyze_password p u sh resp g₂).recommendations :=
  ⟨rfl, rfl, rfl, rfl, rfl⟩

/-- C7: the weaknesses list is exactly the concatenation, in the fixed
order (common password, keyboard pattern, username containment, dictionary
pattern, date pattern), of one fixed message per firing detector; each
message occurs once when its detector fires and never otherwise, and no
other entry ever appears.  The username detector fires only for a non-empty
username whose case-folded form is a substring of the case-folded
password. -/
theorem weaknesses_exact (p u : List Char) :
    _detect_weaknesses p u =
      (if pyLowerStr p ∈ common_passwords then [msgCommon] else []) ++
      (if _check_keyboard_patterns p then [msgKeyboard] else []) ++
      (if u ≠ [] ∧ pyLowerStr u <:+: pyLowerStr p then [msgUsername] else []) ++
      (if _has_dictionary_patterns p then [msgDictionary] else []) ++
      (if _check_date_patterns p then [msgDate] else []) ∧
    (_detect_weaknesses p u).count msgCommon
        = (if pyLowerStr p ∈ common_passwords then 1 else 0) ∧
    (_detect_weaknesses p u).count msgKeyboard
        = (if _check_keyboard_patterns p then 1 else 0) ∧
    (_detect_weaknesses p u).count msgUsername
        = (if u ≠ [] ∧ pyLowerStr u <:+: pyLowerStr p then 1 else 0) ∧
    (_detect_weaknesses p u).count msgDictionary
        = (if _has_dictionary_patterns p then 1 else 0) ∧
    (_detect_weaknesses p u).count msgDate
        = (if _check_date_patterns p then 1 else 0) ∧
    ∀ w ∈ _detect_weaknesses p u,
      w = msgCommon ∨ w = msgKeyboard ∨ w = msgUsername ∨
      w = msgDictionary ∨ w = msgDate := by
  refine ⟨rfl, ?_, ?_, ?_, ?_, ?_, ?_⟩ <;>
  · unfold _detect_weaknesses
    split_ifs <;>
      simp_all [msgCommon, msgKeyboard, msgUsername, msgDictionary, msgDate,
        List.count_append, List.count_cons, List.count_nil]

/-- C8: for a positive requested length the generated password has exactly
that many characters, all drawn from the letters, digits, and punctuation
alphabet, whatever the random draws; for a non-positive length the result is
the empty string rather than an error. -/
theorem generate_secure_password_spec (n : ℤ) (g : ℕ → ℕ) :
    (0 < n → ((generate_secure_password n g).length : ℤ) = n ∧
      ∀ c ∈ generate_secure_password n g, c ∈ suggestAlphabet) ∧
    (n ≤ 0 → generate_secure_password n g = []) := by
  constructor
  · intro hn
    constructor
    · simp only [generate_secure_password, List.length_map, List.length_range]
      omega
    · intro c hc
      simp only [generate_secure_password, List.mem_map] at hc
      obtain ⟨i, _, rfl⟩ := hc
      exact secretsChoice_mem _ _ (by decide)
  · intro hn
    simp [generate_secure_password, Int.toNat_of_nonpos hn]

/-- C8 witness: a positive and a non-positive length at concrete draws. -/
theorem generate_secure_password_spec_witness :
    (((generate_secure_password 2 (fun _ => 0)).length : ℤ) = 2 ∧
      ∀ c ∈ generate_secure_password 2 (fun _ => 0), c ∈ suggestAlphabet) ∧
    generate_secure_password (-1) (fun _ => 0) = [] :=
  ⟨(generate_secure_password_spec 2 (fun _ => 0)).1 (by decide),
   (generate_secure_password_spec (-1) (fun _ => 0)).2 (by decide)⟩

/-- C9: analyzing the empty password with the empty username yields length
0, all four class flags false, no repeated, sequential, or keyboard
patterns, transition ratio 1.0, an empty weaknesses list, and entropy
0.0. -/
theorem empty_password_analysis (sh : String)
    (resp : Except Unit (ℕ × String)) (g : ℕ → ℕ) :
    (analyze_password [] [] sh resp g).metrics.length = 0 ∧
    (analyze_password [] [] sh resp g).metrics.has_uppercase = false ∧
    (analyze_password [] [] sh resp g).metrics.has_lowercase = false ∧
    (analyze_password [] [] sh resp g).metrics.has_digits = false ∧
    (analyze_password [] [] sh resp g).metrics.has_special = false ∧
    (analyze_password [] [] sh resp g).metrics.repeated_chars = false ∧
    (analyze_password [] [] sh resp g).metrics.sequential_chars = false ∧
    (analyze_password [] [] sh resp g).metrics.keyboard_pattern = false ∧
    (analyze_password [] [] sh resp g).metrics.character_transitions = 1 ∧
    (analyze_password [] [] sh resp g).weaknesses = [] ∧
    (analyze_password [] [] sh resp g).entropy = 0 := by
  refine ⟨rfl, rfl, rfl, rfl, rfl, rfl, rfl, ?_, ?_, ?_, ?_⟩
  · show _check_keyboard_patterns [] = false
    decide
  · show _analyze_char_transitions [] = 1
    norm_num [_analyze_char_transitions]
  · show _detect_weaknesses [] [] = []
    decide
  · show _calculate_entropy [] = 0
    simp [_calculate_entropy, charPool]

end Passfort
